import Mathlib

/-!
# Verification of the rutificador core against its specification

Shallow embedding of the `rutificador` package (Chilean RUT validation):
the checksum calculator (`utils.calcular_digito_verificador`), the
normalizer and incremental classifier (`Rut.normalizar` / `Rut.parse`),
the masking/tokenization entry point (`Rut.mask`), and the batch
processor (`procesador.validar_lista_ruts` and its item worker
`_validar_rut_local`).

Conventions used throughout:
* Python strings are modelled as `List Char` internally, converted to
  `String` at result boundaries.  Character predicates (`str.isdigit`,
  `\d`, `\s`, `str.strip`, `str.lower`) are embedded for the character
  repertoire the package manipulates (ASCII plus the Unicode space and
  dash variants the normalizer names).
* Python exceptions are modelled with `Except`: a `.error` value is an
  exception propagating out of the embedded function; domain errors
  (`ErrorRut` subclasses) carry their `error_code`.
* Timing fields (`duracion`, `tiempo_procesamiento`) are not modelled:
  they are explicitly excluded from every equality in the source.
-/

namespace Rutificador

/-! ## Character helpers (Python `str` semantics, embedded) -/

/-- ASCII decimal digit, the semantics of `\d`/`str.isdigit` on the
normalized repertoire of the package. -/
def esDigito (c : Char) : Bool := 48 ≤ c.toNat && c.toNat ≤ 57

/-- Python `int(d)` for a single ASCII digit character. -/
def valorDigito (c : Char) : Nat := c.toNat - 48

/-- The Unicode decimal-digit ranges (category `Nd`) of CPython 3.11's
`unicodedata`: 62 runs of consecutive code points, each char's decimal
value being its offset in the run modulo 10.  Regex `\d` on `str`
patterns matches exactly these characters. -/
def rangosNd : List (Nat × Nat) :=
  [(48, 57), (1632, 1641), (1776, 1785), (1984, 1993),
   (2406, 2415), (2534, 2543), (2662, 2671), (2790, 2799),
   (2918, 2927), (3046, 3055), (3174, 3183), (3302, 3311),
   (3430, 3439), (3558, 3567), (3664, 3673), (3792, 3801),
   (3872, 3881), (4160, 4169), (4240, 4249), (6112, 6121),
   (6160, 6169), (6470, 6479), (6608, 6617), (6784, 6793),
   (6800, 6809), (6992, 7001), (7088, 7097), (7232, 7241),
   (7248, 7257), (42528, 42537), (43216, 43225), (43264, 43273),
   (43472, 43481), (43504, 43513), (43600, 43609), (44016, 44025),
   (65296, 65305), (66720, 66729), (68912, 68921), (69734, 69743),
   (69872, 69881), (69942, 69951), (70096, 70105), (70384, 70393),
   (70736, 70745), (70864, 70873), (71248, 71257), (71360, 71369),
   (71472, 71481), (71904, 71913), (72016, 72025), (72784, 72793),
   (73040, 73049), (73120, 73129), (92768, 92777), (92864, 92873),
   (93008, 93017), (120782, 120831), (123200, 123209), (123632, 123641),
   (125264, 125273), (130032, 130041)]

/-- Unicode decimal digit: the semantics of regex `\d` in the `str`
patterns of `validador.py` (`RUT_REGEX`, `BASE_WITH_DOTS_REGEX`,
`BASE_DIGITS_ONLY_REGEX`). -/
def esDigitoNd (c : Char) : Bool :=
  rangosNd.any (fun r => r.1 ≤ c.toNat && c.toNat ≤ r.2)

/-- Python `int(d)` on one Unicode decimal digit: its offset in its `Nd`
run modulo 10.  Characters outside `Nd` have no decimal value (`int`
raises `ValueError` on them); the model assigns them 0 — see the note on
`calcular_digito_verificador` for why none can reach an `int` call. -/
def valorNd (c : Char) : Nat :=
  match rangosNd.find? (fun r => r.1 ≤ c.toNat && c.toNat ≤ r.2) with
  | some r => (c.toNat - r.1) % 10
  | none => 0

/-- The 128 characters accepted by `str.isdigit` beyond category `Nd`
(Numeric_Type=Digit forms: superscripts, subscripts, circled and
parenthesized digits, Ethiopic and other digit signs), as runs. -/
def rangosDigitoExtraPy : List (Nat × Nat) :=
  [(178, 179), (185, 185), (4969, 4977), (6618, 6618),
   (8304, 8304), (8308, 8313), (8320, 8329), (9312, 9320),
   (9332, 9340), (9352, 9360), (9450, 9450), (9461, 9469),
   (9471, 9471), (10102, 10110), (10112, 10120), (10122, 10130),
   (68160, 68163), (69216, 69224), (69714, 69722), (127232, 127242)]

/-- Python `str.isdigit` on one character: category `Nd` plus the
Numeric_Type=Digit extras. -/
def esDigitoPy (c : Char) : Bool :=
  esDigitoNd c || rangosDigitoExtraPy.any (fun r => r.1 ≤ c.toNat && c.toNat ≤ r.2)

/-- Python `str.lower` on one character (ASCII case mapping; the only cased
characters reaching it in this code base are `K`/`k`). -/
def minuscula (c : Char) : Char :=
  if 65 ≤ c.toNat && c.toNat ≤ 90 then Char.ofNat (c.toNat + 32) else c

/-- Python whitespace: the exact 29-code-point character set of CPython's
`str.isspace`, `str.strip()` and regex `\s` on `str` patterns (the two
sets coincide). -/
def esEspacio (c : Char) : Bool :=
  let n := c.toNat
  n = 32 || (9 ≤ n && n ≤ 13) || (0x1c ≤ n && n ≤ 0x1f) || n = 0x85 ||
  n = 0xa0 || n = 0x1680 || (0x2000 ≤ n && n ≤ 0x200a) ||
  n = 0x2028 || n = 0x2029 || n = 0x202f || n = 0x205f || n = 0x3000

/-- Python `str.strip()`: drop whitespace from both ends. -/
def pyStrip (l : List Char) : List Char :=
  ((l.dropWhile esEspacio).reverse.dropWhile esEspacio).reverse

/-- Characters admitted by the normalizer filter `[^0-9kK\.-]`. -/
def caracterPermitido (c : Char) : Bool :=
  esDigito c || c.toNat = 107 || c.toNat = 75 || c.toNat = 46 || c.toNat = 45

/-- A verification-digit character per `[0-9kK]`. -/
def esDVChar (c : Char) : Bool := esDigito c || c.toNat = 107 || c.toNat = 75

/-- Modelled from the spec: `unicodedata.normalize("NFKC", ...)` is the only piece of behaviour the
core uses that lives outside the repository.  Modelled from the spec
("Unicode canonicalization (NFKC-equivalent)"): character-wise on the
compatibility characters the spec exercises — fullwidth digits, fullwidth
punctuation and the fullwidth letters K/k (all true NFKC singleton
mappings), and the NFKC space foldings NBSP and ideographic space —
identity on everything else (in particular on all of ASCII, where real
NFKC is also the identity). -/
def nfkcChar (c : Char) : Char :=
  if '\uff10' ≤ c && c ≤ '\uff19' then Char.ofNat (c.toNat - 0xff10 + 48)
  else if c = '\uff0d' then '-'
  else if c = '\uff0e' then '.'
  else if c = '\uff2b' then 'K'
  else if c = '\uff4b' then 'k'
  else if c = '\u00a0' || c = '\u3000' then ' '
  else c

/-- NFKC model lifted to a string, character-wise. -/
def nfkcLista (l : List Char) : List Char := l.map nfkcChar

/-! ## Error detail records (`errores.py`) -/

/-- Severity of a catalog entry (`Severidad = Literal["error", "warning"]`). -/
inductive Severidad where
  | error
  | warning
deriving DecidableEq, Repr

/-- Embedding of `errores.DetalleError`: structured error/warning detail.  The
`duracion` field is omitted: the source `__eq__` ignores it. -/
structure DetalleError where
  codigo : String
  mensaje : String
  hint : String
  severidad : Severidad
  recuperable : Bool
  rut : Option String := none
deriving DecidableEq, Repr

/-- An entry of `CATALOGO_ERRORES`. -/
structure EntradaCatalogo where
  mensaje : String
  hint : String
  severidad : Severidad
  recuperable : Bool
deriving DecidableEq, Repr

/-- Embedding of `CATALOGO_ERRORES`, keyed by stable code.  Messages keep the source
text with the quoting punctuation elided. -/
def CATALOGO_ERRORES (codigo : String) : Option EntradaCatalogo :=
  if codigo = "TYPE_ERROR" then
    some ⟨"El RUT debe ser cadena o entero", "Convierta el valor a str o int", .error, false⟩
  else if codigo = "EMPTY_RUT" then
    some ⟨"El RUT no puede estar vacío", "Ingrese al menos un dígito", .error, true⟩
  else if codigo = "INVALID_CHARS" then
    some ⟨"El RUT contiene caracteres no permitidos", "Use solo dígitos, puntos y guion", .error, false⟩
  else if codigo = "FORMAT_DOTS" then
    some ⟨"Separadores de miles inválidos", "Use grupos de 3 dígitos", .error, false⟩
  else if codigo = "FORMAT_HYPHEN" then
    some ⟨"Guion inválido en RUT", "Use un solo guion antes del DV", .error, false⟩
  else if codigo = "LENGTH_MIN" then
    some ⟨"RUT más corto que el mínimo permitido", "Complete más dígitos", .error, true⟩
  else if codigo = "LENGTH_MAX" then
    some ⟨"RUT excede el máximo permitido", "Verifique el número base", .error, false⟩
  else if codigo = "DV_INVALID" then
    some ⟨"Dígito verificador inválido", "Use 0-9 o K", .error, false⟩
  else if codigo = "DV_MISMATCH" then
    some ⟨"El dígito verificador no coincide", "Corrija el DV según el cálculo", .error, false⟩
  else if codigo = "NORMALIZED_WS" then
    some ⟨"Se eliminaron espacios en el RUT", "Ingrese sin espacios", .warning, true⟩
  else if codigo = "NORMALIZED_DASH" then
    some ⟨"Se normalizó el separador de DV", "Use guion estándar (-)", .warning, true⟩
  else if codigo = "NORMALIZED_DOTS" then
    some ⟨"Se eliminaron separadores de miles", "Ingrese sin puntos para uso interno", .warning, true⟩
  else if codigo = "NORMALIZED_DV" then
    some ⟨"Se normalizó el DV a minúscula", "Use k o K", .warning, true⟩
  else if codigo = "LEADING_ZEROS" then
    some ⟨"Se eliminaron ceros a la izquierda", "Ingrese la base sin ceros iniciales", .warning, true⟩
  else if codigo = "MASK_STATE" then
    some ⟨"Enmascarado no disponible para estado no válido", "Valide el RUT antes de enmascarar", .error, false⟩
  else if codigo = "TOKEN_KEY_REQUIRED" then
    some ⟨"Tokenización requiere clave", "Proporcione clave", .error, false⟩
  else none

/-- Embedding of `crear_detalle_error` with no overrides, as every call site in
`rut.py` uses it. -/
def crear_detalle_error (codigo : String) : DetalleError :=
  match CATALOGO_ERRORES codigo with
  | some e => ⟨codigo, e.mensaje, e.hint, e.severidad, e.recuperable, none⟩
  | none => ⟨codigo, "Error desconocido", "Consulte el catálogo de errores", .error, false, none⟩

/-- Whether a detail list carries a given code. -/
def tieneCodigo (l : List DetalleError) (codigo : String) : Bool :=
  l.any (fun d => d.codigo = codigo)

/-! ## Configuration (`config.py`) -/

/-- Embedding of `ConfiguracionRut`: immutable validation parameters. -/
structure ConfiguracionRut where
  factores_verificacion : List Nat := [2, 3, 4, 5, 6, 7]
  modulo : Nat := 11
  max_digitos : Nat := 8
  min_digitos : Nat := 1
deriving DecidableEq, Repr

/-- The default configuration instance `CONFIGURACION_POR_DEFECTO`. -/
def CONFIGURACION_POR_DEFECTO : ConfiguracionRut := {}

/-- The `__post_init__` invariants of `ConfiguracionRut`: only
configurations satisfying them can be constructed. -/
def ConfigValida (cfg : ConfiguracionRut) : Prop :=
  0 < cfg.modulo ∧ 0 < cfg.max_digitos ∧ 0 < cfg.min_digitos ∧
    cfg.min_digitos ≤ cfg.max_digitos

instance : DecidablePred ConfigValida := fun cfg => by
  unfold ConfigValida; infer_instance

/-- Embedding of the `RigorValidacion` enumeration. -/
inductive RigorValidacion where
  | estricto
  | flexible
  | legado
deriving DecidableEq, Repr

/-- The `.value` string of a `RigorValidacion` member. -/
def RigorValidacion.value : RigorValidacion → String
  | .estricto => "estricto"
  | .flexible => "flexible"
  | .legado => "legado"

/-! ## Exceptions (`exceptions.py`) -/

/-- An `ErrorRut` exception in flight: its `error_code` and message. -/
structure ErrorRutE where
  codigo : Option String
  mensaje : String
deriving DecidableEq, Repr

/-! ## Checksum calculator (`utils.calcular_digito_verificador`) -/

/-- The first `n` elements of `itertools.cycle fs` (`getD _ 0` is never
hit by `zip` truncation when `fs` is empty, matching `zip` against an
empty `cycle`). -/
def cicloDesde (fs : List Nat) (k n : Nat) : List Nat :=
  (List.range n).map (fun i => fs.getD ((k + i) % fs.length) 0)

/-- Embedding of `sum(int(d) * f for d, f in zip(reversed(base), cycle(factores)))`;
`int(d)` is Unicode-aware (`valorNd`). -/
def sumaPonderada (digitosInvertidos : List Char) (fs : List Nat) : Nat :=
  ((digitosInvertidos.zip (cicloDesde fs 0 digitosInvertidos.length)).map
    (fun p => valorNd p.1 * p.2)).sum

/-- The final digit selection: decimal digit below 10, else `k`. -/
def dvComoCadena (dv : Nat) : String :=
  if dv < 10 then toString dv else "k"

/-- Embedding of `calcular_digito_verificador(base_numerica, configuracion)`.  A
`.error` is the `ErrorValidacionRut` the Python function raises.  The
digit guard is `str.isdigit` (`esDigitoPy`).  A character that passes
`isdigit` without being a decimal digit (category `No` digit forms such
as a superscript two) would make the source's `int(d)` raise
`ValueError`, a non-domain exception; no call site of this development
can feed one (the parse path supplies bases filtered to `[0-9kK.-]`, the
legacy path only bases vetted by the `Nd`-only anchored patterns of
`validar_base`), and `valorNd` assigns such characters 0. -/
def calcular_digito_verificador (base_numerica : String)
    (configuracion : ConfiguracionRut := CONFIGURACION_POR_DEFECTO) :
    Except ErrorRutE String :=
  if (pyStrip base_numerica.data).isEmpty then
    .error ⟨some "EMPTY_BASE", "La base numérica no puede estar vacía"⟩
  else if !(pyStrip base_numerica.data).all esDigitoPy then
    .error ⟨some "INVALID_DIGITS",
      "La base numérica " ++ ⟨pyStrip base_numerica.data⟩ ++ " debe contener solo dígitos"⟩
  else
    .ok (dvComoCadena ((configuracion.modulo -
      sumaPonderada (pyStrip base_numerica.data).reverse configuracion.factores_verificacion
        % configuracion.modulo) % configuracion.modulo))

/-! ## Normalizer (`Rut.normalizar`)

The source threads a `vistos : set[str]` next to `advertencias`; since
codes enter both together and `vistos` starts empty, `vistos` always
equals the set of codes present in `advertencias`, so the embedding
represents it by that list (`tieneCodigo`). -/

/-- Input of `normalizar`/`parse`: `Union[str, int]`, plus `otro` for any
other Python value (the `TYPE_ERROR` branch). -/
inductive RutInput where
  | str (s : String)
  | int (n : Int)
  | otro
deriving DecidableEq, Repr

/-- Python `str(valor)` as the classifier sees it. -/
def RutInput.comoCadena : RutInput → String
  | .str s => s
  | .int n => toString n
  | .otro => "<otro>"

/-- Result triple of `Rut.normalizar`. -/
structure NormSalida where
  normalizado : Option String
  errores : List DetalleError
  advertencias : List DetalleError
deriving DecidableEq, Repr

/-- Embedding of `Rut._agregar_advertencia`: append a catalog warning unless its code
was already recorded. -/
def agregarAdvertencia (advertencias : List DetalleError) (codigo : String) :
    List DetalleError :=
  if tieneCodigo advertencias codigo then advertencias
  else advertencias ++ [crear_detalle_error codigo]

/-- Dash variants replaced by the normalizer: underscore, en dash, em dash. -/
def esGuionVariante (c : Char) : Bool :=
  c.toNat = 95 || c.toNat = 0x2013 || c.toNat = 0x2014

/-- Embedding of `cadena.replace` for the three dash variants. -/
def reemplazarGuiones (c : Char) : Char := if esGuionVariante c then '-' else c

/-- Embedding of `_BASE_CON_PUNTOS.fullmatch`: one to three digits then dot-separated groups of exactly three digits
(via splitting on the dots, which is equivalent for this anchored
pattern). -/
def baseConPuntos (l : List Char) : Bool :=
  match l.splitOn '.' with
  | [] => false
  | g :: gs =>
    (1 ≤ g.length && g.length ≤ 3 && g.all esDigito) &&
      gs.all (fun h => h.length = 3 && h.all esDigito)

/-- Reassembly plus the confusable-character guard at the end of
`Rut.normalizar` (step: fatal `INVALID_CHARS` when NFKC changed the
string but neither whitespace nor dash normalization was recorded). -/
def normalizarFinal (base : List Char) (dv : Option (List Char))
    (dvFaltante : Bool) (cambioUnicode : Bool)
    (advertencias : List DetalleError) : NormSalida :=
  if cambioUnicode &&
      !(tieneCodigo advertencias "NORMALIZED_WS" ||
        tieneCodigo advertencias "NORMALIZED_DASH") then
    ⟨none, [crear_detalle_error "INVALID_CHARS"], advertencias⟩
  else
    match dv, dvFaltante with
    | some d, _ => ⟨some ⟨base ++ '-' :: d⟩, [], advertencias⟩
    | none, true => ⟨some ⟨base ++ ['-']⟩, [], advertencias⟩
    | none, false => ⟨some ⟨base⟩, [], advertencias⟩

/-- Dot-group validation, leading-zero stripping and verification-digit
validation of `Rut.normalizar`, applied to the split base and
verification parts. -/
def normalizarBaseDV (baseRaw dvParte : List Char) (guionPresente : Bool)
    (cambioUnicode : Bool) (advertencias : List DetalleError) : NormSalida :=
  let hayPuntos := baseRaw.contains '.'
  if hayPuntos && !baseConPuntos baseRaw then
    ⟨none, [crear_detalle_error "FORMAT_DOTS"], advertencias⟩
  else
    let baseSinPuntos := if hayPuntos then baseRaw.filter (fun c => c ≠ '.') else baseRaw
    let advs1 := if hayPuntos then agregarAdvertencia advertencias "NORMALIZED_DOTS" else advertencias
    let baseSinCeros := baseSinPuntos.dropWhile (fun c => c = '0')
    let baseNormalizada := if baseSinCeros.isEmpty then ['0'] else baseSinCeros
    let advs2 := if baseNormalizada ≠ baseSinPuntos then agregarAdvertencia advs1 "LEADING_ZEROS" else advs1
    if guionPresente && !dvParte.isEmpty then
      match dvParte with
      | [c] =>
        if esDVChar c then
          let dvNorm := minuscula c
          let advs3 := if c ≠ dvNorm then agregarAdvertencia advs2 "NORMALIZED_DV" else advs2
          normalizarFinal baseNormalizada (some [dvNorm]) false cambioUnicode advs3
        else ⟨none, [crear_detalle_error "DV_INVALID"], advs2⟩
      | _ => ⟨none, [crear_detalle_error "DV_INVALID"], advs2⟩
    else
      normalizarFinal baseNormalizada none (guionPresente && dvParte.isEmpty) cambioUnicode advs2

/-- Steps of `Rut.normalizar` from the emptiness check on, applied to the
whitespace/dash-normalized character list. -/
def normalizarNucleo (cadena : List Char) (cambioUnicode : Bool)
    (advertencias : List DetalleError) : NormSalida :=
  if cadena.isEmpty then
    ⟨none, [crear_detalle_error "EMPTY_RUT"], advertencias⟩
  else if cadena.any (fun c => !caracterPermitido c) then
    ⟨none, [crear_detalle_error "INVALID_CHARS"], advertencias⟩
  else if !cadena.any esDigito then
    ⟨none, [], advertencias⟩
  else if 1 < cadena.count '-' then
    ⟨none, [crear_detalle_error "FORMAT_HYPHEN"], advertencias⟩
  else
    let guionPresente := cadena.contains '-'
    let baseRaw := if guionPresente then cadena.takeWhile (fun c => c ≠ '-') else cadena
    let dvParte := if guionPresente then (cadena.dropWhile (fun c => c ≠ '-')).tail else []
    if guionPresente && baseRaw.isEmpty then
      ⟨none, [crear_detalle_error "FORMAT_HYPHEN"], advertencias⟩
    else
      normalizarBaseDV baseRaw dvParte guionPresente cambioUnicode advertencias

/-- Embedding of `Rut.normalizar(valor, modo)`: type check, NFKC, surrounding
whitespace, dash variants and internal whitespace, then the core steps. -/
def Rut.normalizar (valor : RutInput)
    (modo : RigorValidacion := .estricto) : NormSalida :=
  match valor with
  | .otro => ⟨none, [crear_detalle_error "TYPE_ERROR"], []⟩
  | _ =>
    let original := (RutInput.comoCadena valor).data
    let canonico := nfkcLista original
    let cambioUnicode : Bool := canonico ≠ original
    let recortado := pyStrip canonico
    let advs0 := if recortado ≠ canonico then agregarAdvertencia [] "NORMALIZED_WS" else []
    let hayGuion := recortado.any esGuionVariante
    let conGuion := if hayGuion then recortado.map reemplazarGuiones else recortado
    let advs1 := if hayGuion then agregarAdvertencia advs0 "NORMALIZED_DASH" else advs0
    if conGuion.any esEspacio then
      if modo = .estricto then
        ⟨none, [crear_detalle_error "INVALID_CHARS"], advs1⟩
      else
        let sinEspacios := conGuion.filter (fun c => !esEspacio c)
        let advs2 := if sinEspacios ≠ conGuion then agregarAdvertencia advs1 "NORMALIZED_WS" else advs1
        normalizarNucleo sinEspacios cambioUnicode advs2
    else
      normalizarNucleo conGuion cambioUnicode advs1

/-! ## Incremental classifier (`Rut.parse`) -/

/-- The four lifecycle states (`EstadoValidacion` literal). -/
inductive EstadoValidacion where
  | incomplete
  | possible
  | valid
  | invalid
deriving DecidableEq, Repr

/-- Embedding of `ValidacionResultado` (the `duracion` field is timing, not
modelled). -/
structure ValidacionResultado where
  original : String
  normalizado : Option String
  base : Option String
  dv : Option String
  estado : EstadoValidacion
  errores : List DetalleError
  advertencias : List DetalleError
  validador_modo : String
deriving DecidableEq, Repr

/-- Embedding of `Rut.parse(valor, modo, configuracion)`.  The result is wrapped in
`Except`: parse has no exception handler around its call to
`calcular_digito_verificador`, so a `.error` is an exception escaping
`parse` itself. -/
def Rut.parse (valor : RutInput)
    (modo : RigorValidacion := .estricto)
    (configuracion : ConfiguracionRut := CONFIGURACION_POR_DEFECTO) :
    Except ErrorRutE ValidacionResultado :=
  let original := valor.comoCadena
  let salida := Rut.normalizar valor modo
  let errores := salida.errores
  let advertencias := salida.advertencias
  if errores.isEmpty then
    match salida.normalizado with
    | none =>
      .ok ⟨original, none, none, none, .incomplete, errores, advertencias, modo.value⟩
    | some nz =>
      let nzl := nz.data
      let conGuion := nzl.contains '-'
      let b : List Char := if conGuion then nzl.takeWhile (fun c => c ≠ '-') else nzl
      let dvO : Option (List Char) :=
        if conGuion then
          let d := (nzl.dropWhile (fun c => c ≠ '-')).tail
          if d.isEmpty then none else some d
        else none
      if b.isEmpty then
        .ok ⟨original, some nz, some ⟨b⟩, dvO.map (fun d => (⟨d⟩ : String)), .incomplete,
          errores, advertencias, modo.value⟩
      else if b.length < configuracion.min_digitos then
        .ok ⟨original, some nz, some ⟨b⟩, dvO.map (fun d => (⟨d⟩ : String)), .invalid,
          [crear_detalle_error "LENGTH_MIN"], advertencias, modo.value⟩
      else if configuracion.max_digitos < b.length then
        .ok ⟨original, some nz, some ⟨b⟩, dvO.map (fun d => (⟨d⟩ : String)), .invalid,
          [crear_detalle_error "LENGTH_MAX"], advertencias, modo.value⟩
      else
        match dvO with
        | none =>
          .ok ⟨original, some nz, some ⟨b⟩, none, .possible, errores, advertencias, modo.value⟩
        | some d =>
          match calcular_digito_verificador ⟨b⟩ configuracion with
          | .error e => .error e
          | .ok digito =>
            if d.map minuscula ≠ digito.data.map minuscula then
              .ok ⟨original, some nz, some ⟨b⟩, some ⟨d⟩, .invalid,
                [crear_detalle_error "DV_MISMATCH"], advertencias, modo.value⟩
            else
              .ok ⟨original, some nz, some ⟨b⟩, some ⟨d⟩, .valid,
                errores, advertencias, modo.value⟩
  else
    let estado : EstadoValidacion :=
      if errores.all (fun e => e.codigo = "EMPTY_RUT") then .incomplete else .invalid
    .ok ⟨original, salida.normalizado, none, none, estado, errores, advertencias, modo.value⟩

/-! ## HMAC-SHA256 and base32 (token mode of `Rut.mask`)

Modelled from the spec: token mode "computes HMAC (SHA-256) over the
normalized base-dv string using the supplied key as the MAC key,
base32-encodes the digest (stripped of padding, lower-cased), and
prefixes with tok_".  The Python standard-library `hashlib`, `hmac` and
`base64` modules are not part of the repository, so they are embedded
here from their published definitions (FIPS 180-4 SHA-256, RFC 2104
HMAC, RFC 4648 base32), executable over byte lists. -/

/-- Word size modulus for 32-bit arithmetic. -/
def m32 : Nat := 4294967296

/-- Rotate a 32-bit word right by `n`. -/
def rotr (n x : Nat) : Nat := ((x >>> n) ||| (x <<< (32 - n))) % m32

/-- SHA-256 round constants. -/
def kconst : List Nat :=
  [1116352408, 1899447441, 3049323471, 3921009573,
   961987163, 1508970993, 2453635748, 2870763221,
   3624381080, 310598401, 607225278, 1426881987,
   1925078388, 2162078206, 2614888103, 3248222580,
   3835390401, 4022224774, 264347078, 604807628,
   770255983, 1249150122, 1555081692, 1996064986,
   2554220882, 2821834349, 2952996808, 3210313671,
   3336571891, 3584528711, 113926993, 338241895,
   666307205, 773529912, 1294757372, 1396182291,
   1695183700, 1986661051, 2177026350, 2456956037,
   2730485921, 2820302411, 3259730800, 3345764771,
   3516065817, 3600352804, 4094571909, 275423344,
   430227734, 506948616, 659060556, 883997877,
   958139571, 1322822218, 1537002063, 1747873779,
   1955562222, 2024104815, 2227730452, 2361852424,
   2428436474, 2756734187, 3204031479, 3329325298]

/-- SHA-256 initial hash value. -/
def h0 : List Nat :=
  [1779033703, 3144134277, 1013904242, 2773480762,
   1359893119, 2600822924, 528734635, 1541459225]

/-- UTF-8 encoding of one code point. -/
def utf8Char (c : Char) : List Nat :=
  let n := c.toNat
  if n < 0x80 then [n]
  else if n < 0x800 then [0xc0 + n / 64, 0x80 + n % 64]
  else if n < 0x10000 then [0xe0 + n / 4096, 0x80 + (n / 64) % 64, 0x80 + n % 64]
  else [0xf0 + n / 0x40000, 0x80 + (n / 4096) % 64, 0x80 + (n / 64) % 64, 0x80 + n % 64]

/-- Python `str.encode("utf-8")` as a byte list. -/
def utf8Encode (l : List Char) : List Nat := (l.map utf8Char).flatten

/-- Big-endian byte expansion of `v` over `n` bytes. -/
def bytesBE (n v : Nat) : List Nat :=
  (List.range n).map (fun i => (v >>> (8 * (n - 1 - i))) % 256)

/-- SHA-256 message padding: `0x80`, zeros, 64-bit big-endian bit length. -/
def sha256Pad (msg : List Nat) : List Nat :=
  let r := (msg.length + 1) % 64
  let ceros := if r ≤ 56 then 56 - r else 120 - r
  msg ++ [0x80] ++ List.replicate ceros 0 ++ bytesBE 8 (msg.length * 8)

/-- Split a byte list into chunks of `k + 1` bytes.  The fuel argument
is bounded below by the list length, which every call supplies, so the
zero-fuel arm is unreachable; structural recursion on the fuel keeps the
function reducible in the kernel. -/
def trozosFuel (k : Nat) : Nat → List Nat → List (List Nat)
  | _, [] => []
  | 0, _ => []
  | fuel + 1, b :: resto => (b :: resto.take k) :: trozosFuel k fuel (resto.drop k)

/-- Split a byte list into chunks of `k + 1` bytes. -/
def trozos (k : Nat) (l : List Nat) : List (List Nat) := trozosFuel k l.length l

/-- The sixteen 32-bit big-endian words of one 64-byte block. -/
def palabrasDe (bloque : List Nat) : List Nat :=
  (List.range 16).map (fun i =>
    ((bloque.getD (4 * i) 0) <<< 24) + ((bloque.getD (4 * i + 1) 0) <<< 16) +
      ((bloque.getD (4 * i + 2) 0) <<< 8) + bloque.getD (4 * i + 3) 0)

/-- SHA-256 message schedule: extend 16 words to 64. -/
def extiendeW (w16 : List Nat) : List Nat :=
  (List.range 48).foldl (fun w _ =>
    let i := w.length
    let w15 := w.getD (i - 15) 0
    let w2 := w.getD (i - 2) 0
    let s0 := (rotr 7 w15) ^^^ (rotr 18 w15) ^^^ (w15 >>> 3)
    let s1 := (rotr 17 w2) ^^^ (rotr 19 w2) ^^^ (w2 >>> 10)
    w ++ [(w.getD (i - 16) 0 + s0 + w.getD (i - 7) 0 + s1) % m32]) w16

/-- Working state of the SHA-256 compression loop. -/
structure EstadoSha where
  a : Nat
  b : Nat
  c : Nat
  d : Nat
  e : Nat
  f : Nat
  g : Nat
  h : Nat
deriving Repr

/-- One block of SHA-256 compression. -/
def comprime (hs : List Nat) (w : List Nat) : List Nat :=
  let ini : EstadoSha :=
    ⟨hs.getD 0 0, hs.getD 1 0, hs.getD 2 0, hs.getD 3 0,
     hs.getD 4 0, hs.getD 5 0, hs.getD 6 0, hs.getD 7 0⟩
  let fin := (List.range 64).foldl (fun (st : EstadoSha) i =>
    let s1 := (rotr 6 st.e) ^^^ (rotr 11 st.e) ^^^ (rotr 25 st.e)
    let ch := (st.e &&& st.f) ^^^ ((st.e ^^^ (m32 - 1)) &&& st.g)
    let t1 := (st.h + s1 + ch + kconst.getD i 0 + w.getD i 0) % m32
    let s0 := (rotr 2 st.a) ^^^ (rotr 13 st.a) ^^^ (rotr 22 st.a)
    let mj := (st.a &&& st.b) ^^^ (st.a &&& st.c) ^^^ (st.b &&& st.c)
    let t2 := (s0 + mj) % m32
    ⟨(t1 + t2) % m32, st.a, st.b, st.c, (st.d + t1) % m32, st.e, st.f, st.g⟩) ini
  [(hs.getD 0 0 + fin.a) % m32, (hs.getD 1 0 + fin.b) % m32,
   (hs.getD 2 0 + fin.c) % m32, (hs.getD 3 0 + fin.d) % m32,
   (hs.getD 4 0 + fin.e) % m32, (hs.getD 5 0 + fin.f) % m32,
   (hs.getD 6 0 + fin.g) % m32, (hs.getD 7 0 + fin.h) % m32]

/-- SHA-256 digest of a byte list, as 32 bytes. -/
def sha256 (msg : List Nat) : List Nat :=
  let hs := (trozos 63 (sha256Pad msg)).foldl
    (fun hs b => comprime hs (extiendeW (palabrasDe b))) h0
  (hs.map (bytesBE 4)).flatten

/-- HMAC-SHA256 (RFC 2104) with a 64-byte block size. -/
def hmacSha256 (key msg : List Nat) : List Nat :=
  let k0 := if 64 < key.length then sha256 key else key
  let k64 := k0 ++ List.replicate (64 - k0.length) 0
  sha256 ((k64.map (fun b => b ^^^ 0x5c)) ++
    sha256 ((k64.map (fun b => b ^^^ 0x36)) ++ msg))

/-- RFC 4648 base32 alphabet. -/
def alfabetoB32 : List Char := "ABCDEFGHIJKLMNOPQRSTUVWXYZ234567".data

/-- Encode up to five bytes as eight base32 symbols with `=` padding. -/
def b32Grupo (bs : List Nat) : List Char :=
  let nBits := bs.length * 8
  let nChars := (nBits + 4) / 5
  let v := (bs.foldl (fun a b => a * 256 + b) 0) <<< (nChars * 5 - nBits)
  ((List.range nChars).map
    (fun i => alfabetoB32.getD ((v >>> (5 * (nChars - 1 - i))) % 32) 'A')) ++
    List.replicate (8 - nChars) '='

/-- Python `base64.b32encode` over a byte list, structurally recursive
on a fuel bounded below by the list length (always sufficient, so the
zero-fuel arm is unreachable). -/
def b32encodeFuel : Nat → List Nat → List Char
  | _, [] => []
  | 0, _ => []
  | fuel + 1, b :: resto => b32Grupo (b :: resto.take 4) ++ b32encodeFuel fuel (resto.drop 4)

/-- Python `base64.b32encode` over a byte list. -/
def b32encode (bs : List Nat) : List Char := b32encodeFuel bs.length bs

/-- The padding character stripped by `rstrip` in token mode. -/
def chr61 : Char := Char.ofNat 61

/-- The token body: base32 of the HMAC digest, `=`-stripped, lower-cased. -/
def tokenCuerpo (clave mensaje : List Char) : List Char :=
  let digesto := hmacSha256 (utf8Encode clave) (utf8Encode mensaje)
  (((b32encode digesto).reverse.dropWhile (fun c => c = chr61)).reverse).map minuscula

/-! ## Masking / tokenization (`Rut.mask`) -/

/-- Python `str.upper` on one character (ASCII case mapping). -/
def mayusculaChar (c : Char) : Char :=
  if 97 ≤ c.toNat && c.toNat ≤ 122 then Char.ofNat (c.toNat - 32) else c

/-- Chunks of `k + 1` characters, as the slicing loop of
`_agregar_separador_miles` produces them; fuel-structural like
`trozosFuel`. -/
def trozosCFuel (k : Nat) : Nat → List Char → List (List Char)
  | _, [] => []
  | 0, _ => []
  | fuel + 1, b :: resto => (b :: resto.take k) :: trozosCFuel k fuel (resto.drop k)

/-- Chunks of `k + 1` characters for the thousands separator. -/
def trozosC (k : Nat) (l : List Char) : List (List Char) := trozosCFuel k l.length l

/-- Embedding of `Rut._agregar_separador_miles`: group the reversed
digits in threes and join with the separator. -/
def agregar_separador_miles (numero : List Char) (separador : Char) : List Char :=
  if numero.length ≤ 3 then numero
  else (List.intercalate [separador] (trozosC 2 numero.reverse)).reverse

/-- Mode argument of `Rut.mask`. -/
inductive ModoMask where
  | mask
  | token
deriving DecidableEq, Repr

/-- Embedding of `Rut.mask(valor, keep, char, modo, clave, ...)`.
`keep` is an `Int` so that the negative-argument guard of the source is
kept; `char` is a `String` so that the single-character guard is kept.
A `.error` is the `ErrorValidacionRut` the source raises (or, for the
classification call, whatever escapes `Rut.parse`). -/
def Rut.mask (valor : RutInput) (keep : Int := 4) (char : String := "*")
    (modo : ModoMask := .mask) (clave : Option String := none)
    (separador_miles : Bool := false) (mayusculas : Bool := false)
    (separador_personalizado : Char := '.') : Except ErrorRutE String :=
  if keep < 0 then
    .error ⟨some "TYPE_ERROR", "keep debe ser un entero mayor o igual a 0"⟩
  else if char.length ≠ 1 then
    .error ⟨some "TYPE_ERROR", "char debe ser un único carácter"⟩
  else
    match Rut.parse valor with
    | .error e => .error e
    | .ok resultado =>
      match resultado.estado, resultado.base, resultado.dv with
      | .valid, some b, some d =>
        match modo with
        | .token =>
          match clave with
          | none =>
            .error ⟨some "TOKEN_KEY_REQUIRED", (crear_detalle_error "TOKEN_KEY_REQUIRED").mensaje⟩
          | some k =>
            match resultado.normalizado with
            | none => .error ⟨none, "AttributeError"⟩
            | some nz => .ok ⟨"tok_".data ++ tokenCuerpo k.data nz.data⟩
        | .mask =>
          let bl := b.data
          let cChar := char.data.headD '*'
          let baseMascarada : List Char :=
            if (bl.length : Int) ≤ keep then bl
            else if keep = 0 then List.replicate bl.length cChar
            else
              List.replicate (bl.length - keep.toNat) cChar ++
                bl.drop (bl.length - keep.toNat)
          let conMiles :=
            if separador_miles then
              agregar_separador_miles baseMascarada separador_personalizado
            else baseMascarada
          let rutMascarado := conMiles ++ '-' :: d.data
          .ok ⟨if mayusculas then rutMascarado.map mayusculaChar else rutMascarado⟩
      | _, _, _ =>
        .error ⟨some "MASK_STATE", (crear_detalle_error "MASK_STATE").mensaje⟩

/-! ## Batch processor (`procesador.py`) and the legacy constructor

`ProcesadorLotesRut.validar_lista_ruts` validates each string by
constructing the legacy `Rut` object (`Rut.__init__` →
`ValidadorRut.validar_formato` / `validar_base` /
`validar_digito_verificador` → `calcular_digito_verificador`).  The
outcome of one such construction is an `ItemResultado`: success, a
domain error (`ErrorRut` with its `error_code`), or an unexpected
non-domain exception — the last never arises from `rutConstruir` itself
but can arise from a duck-typed injected validador, which is why
`_validar_rut_local` has a handler structure for it. -/

/-- Embedding of `procesador.RutProcesado` (timing field omitted). -/
structure RutProcesado where
  valor : String
  base : String
  digito : String
  validador_modo : String
deriving DecidableEq, Repr

/-- Embedding of `procesador.DetalleError` (distinct from
`errores.DetalleError`); its `__eq__` ignores `duracion`, which is
omitted. -/
structure DetalleErrorLote where
  rut : String
  codigo : Option String
  mensaje : String
deriving DecidableEq, Repr

/-- Embedding of `ResultadoLote` (timing field omitted). -/
structure ResultadoLote where
  detalles_validos : List RutProcesado
  ruts_validos : List String
  ruts_invalidos : List DetalleErrorLote
  total_procesados : Nat
deriving DecidableEq, Repr

/-- Embedding of `ValidadorRut`: configuration plus rigor mode. -/
structure ValidadorRut where
  configuracion : ConfiguracionRut := CONFIGURACION_POR_DEFECTO
  modo : RigorValidacion := .estricto
deriving DecidableEq, Repr

/-- Outcome of one `Rut(cadena, validador)` construction. -/
inductive ItemResultado where
  | exito (base digito : String)
  | errorDominio (codigo : Option String) (mensaje : String)
  | inesperado (mensaje : String)
deriving DecidableEq, Repr

/-- Base group of `RUT_REGEX`: one to eight leading digits then
dot-separated groups of exactly three digits (split-on-dots form of the
anchored pattern); `\d` matches Unicode decimal digits. -/
def baseFormatoLegado (l : List Char) : Bool :=
  match l.splitOn '.' with
  | [] => false
  | g :: gs =>
    (1 ≤ g.length && g.length ≤ 8 && g.all esDigitoNd) &&
      gs.all (fun h => h.length = 3 && h.all esDigitoNd)

/-- Embedding of `RUT_REGEX.fullmatch`, returning groups 1 and 3. -/
def rutRegexMatch (l : List Char) : Option (List Char × Option Char) :=
  match l.splitOn '-' with
  | [b] => if baseFormatoLegado b then some (b, none) else none
  | [b, d] =>
    match d with
    | [c] => if baseFormatoLegado b && esDVChar c then some (b, some c) else none
    | _ => none
  | _ => none

/-- Embedding of `ValidadorRut._normalizar_entrada` (flexible mode):
drop whitespace, standardize underscore and en dash. -/
def normalizarEntradaLegado (l : List Char) : List Char :=
  (l.filter (fun c => !esEspacio c)).map
    (fun c => if c = '_' || c = '–' then '-' else c)

/-- Embedding of `ValidadorRut.validar_formato`. -/
def ValidadorRut.validar_formato (v : ValidadorRut) (cadena_rut : List Char) :
    Except ErrorRutE (List Char × Option Char) :=
  let r := pyStrip cadena_rut
  if r.isEmpty then .error ⟨some "EMPTY_STRING", "RUT no puede estar vacío"⟩
  else
    let c := if v.modo = .flexible then normalizarEntradaLegado r else r
    match rutRegexMatch c with
    | some m => .ok m
    | none =>
      .error ⟨some "FORMAT_ERROR",
        "Formato de RUT inválido: " ++ ⟨c⟩ ++
          ". Formato esperado: XXXXXXXX-X o XX.XXX.XXX-X donde X son dígitos y el último puede ser k"⟩

/-- Embedding of `utils.normalizar_base_rut`: drop dots and leading
zeros, empty collapses to `0`. -/
def normalizar_base_rut (base : List Char) : List Char :=
  let b := (base.filter (fun c => c ≠ '.')).dropWhile (fun c => c = '0')
  if b.isEmpty then ['0'] else b

/-- Embedding of `BASE_WITH_DOTS_REGEX.match`: `^\d{1,3}(?:\.\d{3})*$`,
one to three leading digits then dot-separated groups of exactly three.
`re.match` anchors at the start, and the `$` anchors at the end or
before a final newline; `validar_base` strips its argument first, so no
trailing newline remains and the pattern is a full match. -/
def baseConPuntosLegado (l : List Char) : Bool :=
  match l.splitOn '.' with
  | [] => false
  | g :: gs =>
    (1 ≤ g.length && g.length ≤ 3 && g.all esDigitoNd) &&
      gs.all (fun h => h.length = 3 && h.all esDigitoNd)

/-- Embedding of `BASE_DIGITS_ONLY_REGEX.match`: `^\d+$`, one or more
Unicode decimal digits (full match after the strip, as above). -/
def baseSoloDigitosLegado (l : List Char) : Bool :=
  !l.isEmpty && l.all esDigitoNd

/-- Embedding of `ValidadorRut.validar_base`: strip (via
`asegurar_cadena_no_vacia`), require a full match of the dots-grouped or
the all-digits pattern, normalize, and bound the length. -/
def ValidadorRut.validar_base (v : ValidadorRut) (base : List Char)
    (rut_original : List Char) : Except ErrorRutE (List Char) :=
  let b := pyStrip base
  if b.isEmpty then .error ⟨some "EMPTY_STRING", "base no puede estar vacío"⟩
  else if !(baseConPuntosLegado b || baseSoloDigitosLegado b) then
    .error ⟨some "FORMAT_ERROR",
      "Formato de RUT inválido: " ++ ⟨b⟩ ++
        ". Formato esperado: cadena numérica con separadores de miles opcionales"⟩
  else
    let bn := normalizar_base_rut b
    if v.configuracion.max_digitos < bn.length then
      .error ⟨some "LENGTH_ERROR",
        "El RUT " ++ ⟨rut_original⟩ ++ " excede la longitud máxima: " ++
          toString bn.length ++ " > " ++ toString v.configuracion.max_digitos⟩
    else .ok bn

/-- Embedding of `ValidadorRut.validar_digito_verificador`. -/
def ValidadorRut.validar_digito_verificador (digito_ingresado : Option Char)
    (digito_calculado : String) : Except ErrorRutE Unit :=
  match digito_ingresado with
  | none => .ok ()
  | some d =>
    if [minuscula d] ≠ digito_calculado.data.map minuscula then
      .error ⟨some "DIGIT_ERROR",
        "Dígito verificador no coincide: se entregó " ++ ⟨[d]⟩ ++
          ", se calculó " ++ digito_calculado⟩
    else .ok ()

/-- Embedding of `Rut.__init__` plus `_analizar_y_validar` for a string
input, as the outcome `_validar_rut_local` observes.  The
`cadena_rut.isdigit()` branch test is Unicode-aware (`esDigitoPy`); the
checksum call uses the default configuration, exactly as the source does
(`calcular_digito_verificador(self.base.base)` passes no
`configuracion`). -/
def rutConstruir (rut : String) (validador : ValidadorRut) : ItemResultado :=
  let cadena := pyStrip rut.data
  if cadena.isEmpty then
    .errorDominio (some "EMPTY_RUT") "El RUT no puede estar vacío"
  else
    let analisis : Except ErrorRutE (List Char × Option Char) :=
      if cadena.all esDigitoPy then .ok (cadena, none)
      else validador.validar_formato cadena
    match analisis with
    | .error e => .errorDominio e.codigo e.mensaje
    | .ok (cadenaBase, digitoIngresado) =>
      match validador.validar_base cadenaBase cadena with
      | .error e => .errorDominio e.codigo e.mensaje
      | .ok baseN =>
        match calcular_digito_verificador ⟨baseN⟩ with
        | .error e => .errorDominio e.codigo e.mensaje
        | .ok dv =>
          match ValidadorRut.validar_digito_verificador digitoIngresado dv with
          | .error e => .errorDominio e.codigo e.mensaje
          | .ok _ => .exito ⟨baseN⟩ dv

/-- One merged entry of a batch result. -/
inductive ItemSalida where
  | valido (detalle : RutProcesado)
  | invalido (detalle : DetalleErrorLote)
deriving DecidableEq, Repr

/-- Embedding of `_validar_rut_local`, abstracted over the outcome of
the `Rut` construction: success yields `(True, RutProcesado)`, an
`ErrorRut` is caught and yields `(False, DetalleError)` carrying the
exception code and message, and any other exception is re-raised
(`except Exception: raise`), modelled as `.error`. -/
def validar_rut_local (cadena : String) (modo : RigorValidacion)
    (resultadoItem : ItemResultado) : Except String ItemSalida :=
  match resultadoItem with
  | .exito base digito =>
    .ok (.valido ⟨base ++ "-" ++ digito, base, digito, modo.value⟩)
  | .errorDominio codigo mensaje => .ok (.invalido ⟨cadena, codigo, mensaje⟩)
  | .inesperado mensaje => .error mensaje

/-- The per-item results of a batch, in input order; a `.error` is an
exception escaping the iteration of `resultados` in
`validar_lista_ruts`. -/
def secuenciaItems (modo : RigorValidacion) :
    List (String × ItemResultado) → Except String (List ItemSalida)
  | [] => .ok []
  | (c, o) :: resto =>
    match validar_rut_local c modo o with
    | .error m => .error m
    | .ok s => (secuenciaItems modo resto).map (fun ss => s :: ss)

/-- The accumulation loop of `validar_lista_ruts`: valid items append to
`ruts_validos` and `detalles_validos`, invalid ones to
`ruts_invalidos`, in iteration order. -/
def acumularLote : List ItemSalida → List RutProcesado × List String × List DetalleErrorLote
  | [] => ([], [], [])
  | .valido d :: resto =>
    (d :: (acumularLote resto).1, d.valor :: (acumularLote resto).2.1,
      (acumularLote resto).2.2)
  | .invalido e :: resto =>
    ((acumularLote resto).1, (acumularLote resto).2.1,
      e :: (acumularLote resto).2.2)

/-- Batch aggregation over already-determined item outcomes. -/
def validarListaDesde (modo : RigorValidacion)
    (items : List (String × ItemResultado)) : Except String ResultadoLote :=
  (secuenciaItems modo items).map (fun ss =>
    ⟨(acumularLote ss).1, (acumularLote ss).2.1, (acumularLote ss).2.2,
      items.length⟩)

/-- Embedding of `_validar_rut_en_proceso`: rebuild a `ValidadorRut`
from the pickled `(cadena, configuracion, modo)` payload. -/
def rutConstruirEnProceso (payload : String × ConfiguracionRut × RigorValidacion) :
    ItemResultado :=
  rutConstruir payload.1 ⟨payload.2.1, payload.2.2⟩

/-- Embedding of `ProcesadorLotesRut.validar_lista_ruts(ruts, parallel)`.
The parallel branch maps `_validar_rut_en_proceso` over payloads built
from the validador configuration and mode through `executor.map`, which
yields results in submission order regardless of completion order; the
sequential branch maps `_validar_rut_local` over the strings with the
held validador.  Both are therefore ordered maps over the input. -/
def validar_lista_ruts (validador : ValidadorRut) (ruts : List String)
    (parallel : Bool) : Except String ResultadoLote :=
  let items :=
    if parallel then
      ruts.map (fun c => (c, rutConstruirEnProceso (c, validador.configuracion, validador.modo)))
    else
      ruts.map (fun c => (c, rutConstruir c validador))
  validarListaDesde validador.modo items

/-! ## Helper lemmas -/

/-- A digit character is not whitespace. -/
lemma esDigito_no_espacio (c : Char) (h : esDigito c = true) : esEspacio c = false := by
  unfold esDigito at h
  unfold esEspacio
  simp only [Bool.and_eq_true, decide_eq_true_eq] at h
  simp only [Bool.or_eq_false_iff, Bool.and_eq_false_iff, decide_eq_false_iff_not]
  omega

/-- Lists on which a predicate never holds are fixed by `dropWhile`. -/
lemma dropWhile_id_de_falso (p : Char → Bool) (l : List Char)
    (h : ∀ c ∈ l, p c = false) : l.dropWhile p = l := by
  cases l with
  | nil => rfl
  | cons a resto => simp [List.dropWhile_cons, h a (List.mem_cons_self a resto)]

/-- On an all-digit list, `str.strip()` is the identity. -/
lemma pyStrip_digitos (l : List Char) (h : ∀ c ∈ l, esDigito c = true) :
    pyStrip l = l := by
  unfold pyStrip
  rw [dropWhile_id_de_falso _ _ (fun c hc => esDigito_no_espacio c (h c hc)),
    dropWhile_id_de_falso _ _
      (fun c hc => esDigito_no_espacio c (h c (List.mem_reverse.mp hc))),
    List.reverse_reverse]

/-! ## Claim C4: the checksum calculator matches the reference
algorithm of the specification -/

/-- Reference weighted sum, written exactly as the specification
describes the scan: walk the digits from least significant to most
significant, multiplying each by the cyclically indexed verification
factor. -/
def sumaReferencia (fs : List Nat) : Nat → List Char → Nat
  | _, [] => 0
  | k, d :: resto => valorDigito d * fs.getD (k % fs.length) 0 + sumaReferencia fs (k + 1) resto

/-- Reference checksum per the specification: cyclic weighted sum over
the reversed digits, `r = (modulo - sum mod modulo) mod modulo`, decimal
digit below ten and `k` otherwise. -/
def digito_verificador_referencia (base : String) (cfg : ConfiguracionRut) : String :=
  let suma := sumaReferencia cfg.factores_verificacion 0 base.data.reverse
  dvComoCadena ((cfg.modulo - suma % cfg.modulo) % cfg.modulo)

/-- Unfolding `cicloDesde` one step. -/
lemma cicloDesde_succ (fs : List Nat) (k n : Nat) :
    cicloDesde fs k (n + 1) =
      fs.getD (k % fs.length) 0 :: cicloDesde fs (k + 1) n := by
  unfold cicloDesde
  rw [List.range_succ_eq_map, List.map_cons, List.map_map]
  refine congrArg₂ List.cons (by simp) ?_
  refine List.map_congr_left (fun a _ => ?_)
  simp only [Function.comp_apply, Nat.succ_eq_add_one]
  have : k + (a + 1) = k + 1 + a := by omega
  rw [this]

/-- An ASCII digit is a Unicode decimal digit (first run of `rangosNd`). -/
lemma esDigitoNd_de_ascii (c : Char) (h : esDigito c = true) :
    esDigitoNd c = true := by
  unfold esDigito at h
  simp only [Bool.and_eq_true, decide_eq_true_eq] at h
  unfold esDigitoNd rangosNd
  rw [List.any_cons]
  have hc : ((48, 57).1 ≤ c.toNat && c.toNat ≤ (48, 57).2) = true := by
    simp only [Bool.and_eq_true, decide_eq_true_eq]
    exact h
  rw [hc, Bool.true_or]

/-- An ASCII digit satisfies `str.isdigit`. -/
lemma esDigitoPy_de_ascii (c : Char) (h : esDigito c = true) :
    esDigitoPy c = true := by
  unfold esDigitoPy
  rw [esDigitoNd_de_ascii c h, Bool.true_or]

/-- On ASCII digits the Unicode digit value is the ASCII one. -/
lemma valorNd_ascii (c : Char) (h : esDigito c = true) :
    valorNd c = valorDigito c := by
  unfold esDigito at h
  simp only [Bool.and_eq_true, decide_eq_true_eq] at h
  unfold valorNd rangosNd valorDigito
  rw [List.find?_cons_of_pos _ (by
    simp only [Bool.and_eq_true, decide_eq_true_eq]
    exact h)]
  exact Nat.mod_eq_of_lt (by omega)

/-- The zip-against-a-cycle sum of the implementation equals the
reference cyclic-index sum, for any starting offset, on ASCII-digit
lists. -/
lemma sumaPonderada_eq_referencia (fs : List Nat) (ds : List Char) (k : Nat)
    (hds : ∀ c ∈ ds, esDigito c = true) :
    ((ds.zip (cicloDesde fs k ds.length)).map (fun p => valorNd p.1 * p.2)).sum
      = sumaReferencia fs k ds := by
  induction ds generalizing k with
  | nil => simp [sumaReferencia]
  | cons d resto ih =>
    rw [List.length_cons, cicloDesde_succ, List.zip_cons_cons, List.map_cons,
      List.sum_cons, ih (k + 1) (fun c hc => hds c (List.mem_cons_of_mem d hc)),
      valorNd_ascii d (hds d (List.mem_cons_self d resto))]
    rfl

/-- CLAIM C4: for every non-empty all-digit base string and every
configuration, `calcular_digito_verificador` equals the reference
definition from the specification (least-significant-first scan against
the cyclically repeated factors, `r = (modulo - sum mod modulo) mod
modulo`, digit below ten else `k`). -/
theorem calcular_digito_verificador_eq_referencia
    (base : String) (cfg : ConfiguracionRut)
    (h1 : base.data ≠ []) (h2 : ∀ c ∈ base.data, esDigito c = true) :
    calcular_digito_verificador base cfg =
      .ok (digito_verificador_referencia base cfg) := by
  have hall : base.data.all esDigitoPy = true :=
    List.all_eq_true.mpr (fun c hc => esDigitoPy_de_ascii c (h2 c hc))
  unfold calcular_digito_verificador
  rw [pyStrip_digitos base.data h2]
  rw [if_neg (by simp [List.isEmpty_iff, h1]), if_neg (by simp [hall])]
  unfold digito_verificador_referencia sumaPonderada
  rw [sumaPonderada_eq_referencia _ _ _ (fun c hc => h2 c (List.mem_reverse.mp hc))]

/-- Witness for C4 at the specification example: the checksum of
`12345678` under the default configuration is `5`. -/
theorem calcular_digito_verificador_eq_referencia_testigo :
    ("12345678".data ≠ [] ∧ (∀ c ∈ "12345678".data, esDigito c = true)) ∧
      calcular_digito_verificador "12345678" CONFIGURACION_POR_DEFECTO =
        .ok (digito_verificador_referencia "12345678" CONFIGURACION_POR_DEFECTO) ∧
      digito_verificador_referencia "12345678" CONFIGURACION_POR_DEFECTO = "5" := by
  exact ⟨⟨by decide, by decide⟩,
    calcular_digito_verificador_eq_referencia "12345678" CONFIGURACION_POR_DEFECTO
      (by decide) (by decide),
    by decide⟩

/-! ## Decidability of result comparisons -/

def exceptDecEq {ε α : Type} [DecidableEq ε] [DecidableEq α] :
    (a b : Except ε α) → Decidable (a = b)
  | .ok x, .ok y =>
    if h : x = y then .isTrue (congrArg Except.ok h)
    else .isFalse (fun hh => h (Except.ok.inj hh))
  | .error x, .error y =>
    if h : x = y then .isTrue (congrArg Except.error h)
    else .isFalse (fun hh => h (Except.error.inj hh))
  | .ok _, .error _ => .isFalse (fun hh => Except.noConfusion hh)
  | .error _, .ok _ => .isFalse (fun hh => Except.noConfusion hh)

instance {ε α : Type} [DecidableEq ε] [DecidableEq α] : DecidableEq (Except ε α) :=
  exceptDecEq

/-! ## Claim C1 (code bug): `Rut.parse` can raise

The docstring of `Rut.parse` reads "Parsea un RUT en forma incremental
sin lanzar excepciones", and the specification promises that every
failure is captured as error data.  But `normalizar` admits `k`/`K`
inside the base (its character filter is `[^0-9kK\.-]`), and `parse`
calls `calcular_digito_verificador` on that base with no handler, so an
input such as `1k-5` raises `ErrorValidacionRut(INVALID_DIGITS)` out of
`parse`. -/

/-- CLAIM C1 (failing input): on `"1k-5"` the classifier propagates the
`INVALID_DIGITS` exception from the checksum calculator instead of
returning a `ValidacionResultado`, contradicting both the claim and the
docstring of `parse`. -/
theorem parse_lanza_excepcion_en_base_con_k :
    Rut.parse (.str "1k-5") .estricto CONFIGURACION_POR_DEFECTO =
      .error ⟨some "INVALID_DIGITS",
        "La base numérica 1k debe contener solo dígitos"⟩ := by
  decide

/-! ## Claim C3: incremental typing sequence -/

/-- CLAIM C3: feeding the six prefixes of `12.345.678-5` to `Rut.parse`
under the default configuration and strict mode yields the states
incomplete, possible, possible, possible, possible, valid, in that
order. -/
theorem parse_estados_incrementales :
    (Rut.parse (.str "") .estricto CONFIGURACION_POR_DEFECTO).map
        ValidacionResultado.estado = .ok .incomplete ∧
    (Rut.parse (.str "1") .estricto CONFIGURACION_POR_DEFECTO).map
        ValidacionResultado.estado = .ok .possible ∧
    (Rut.parse (.str "12") .estricto CONFIGURACION_POR_DEFECTO).map
        ValidacionResultado.estado = .ok .possible ∧
    (Rut.parse (.str "12.345") .estricto CONFIGURACION_POR_DEFECTO).map
        ValidacionResultado.estado = .ok .possible ∧
    (Rut.parse (.str "12.345.678-") .estricto CONFIGURACION_POR_DEFECTO).map
        ValidacionResultado.estado = .ok .possible ∧
    (Rut.parse (.str "12.345.678-5") .estricto CONFIGURACION_POR_DEFECTO).map
        ValidacionResultado.estado = .ok .valid := by
  decide

/-! ## Claim C2 (corrected): unexpected item errors abort the batch

`_validar_rut_local` catches `ErrorRut` and records the item invalid,
but its final handler is `except Exception: raise` — an unexpected
non-domain error is deliberately re-raised (the source comments that it
must not silence programming failures), so it propagates out of
`validar_lista_ruts` and aborts the batch rather than being converted
into a `DetalleError` with `codigo = None`. -/

/-- CLAIM C2 (counterexample): a single-item batch whose item raises an
unexpected error does not produce a `ResultadoLote` at all — the batch
aborts with the exception. -/
theorem validarListaDesde_aborta_con_error_inesperado :
    validarListaDesde .estricto [("x", ItemResultado.inesperado "boom")] =
      .error "boom" := by
  decide

/-- CLAIM C2 (amended): when no item raises an unexpected non-domain
error, the batch completes; every domain-error item is recorded invalid
as a `DetalleError` carrying that exception's `error_code` and message,
every successful item is recorded valid, both in input order, and every
item is processed. -/
theorem validarListaDesde_continua_con_errores_de_dominio
    (modo : RigorValidacion) (items : List (String × ItemResultado))
    (h : ∀ p ∈ items, ∀ m, p.2 ≠ ItemResultado.inesperado m) :
    validarListaDesde modo items = .ok
      ⟨items.filterMap (fun p => match p.2 with
          | .exito b d => some ⟨b ++ "-" ++ d, b, d, modo.value⟩
          | _ => none),
        items.filterMap (fun p => match p.2 with
          | .exito b d => some (b ++ "-" ++ d)
          | _ => none),
        items.filterMap (fun p => match p.2 with
          | .errorDominio c m => some ⟨p.1, c, m⟩
          | _ => none),
        items.length⟩ := by
  induction items with
  | nil => rfl
  | cons p resto ih =>
    have hresto : ∀ q ∈ resto, ∀ m, q.2 ≠ ItemResultado.inesperado m :=
      fun q hq => h q (List.mem_cons_of_mem _ hq)
    have hp := h p (List.mem_cons_self _ _)
    obtain ⟨c, o⟩ := p
    have ihe := ih hresto
    unfold validarListaDesde at ihe ⊢
    cases hsec : secuenciaItems modo resto with
    | error m =>
      rw [hsec] at ihe
      simp [Except.map] at ihe
    | ok ss =>
      rw [hsec] at ihe
      simp only [Except.map, Except.ok.injEq] at ihe
      cases o with
      | inesperado m => exact absurd rfl (hp m)
      | exito b d =>
        simp only [ResultadoLote.mk.injEq] at ihe
        obtain ⟨ih1, ih2, ih3, -⟩ := ihe
        simp only [secuenciaItems, validar_rut_local, hsec, Except.map,
          List.filterMap_cons, List.length_cons, acumularLote, Except.ok.injEq,
          ResultadoLote.mk.injEq]
        exact ⟨by rw [ih1], by rw [ih2], by rw [ih3], trivial⟩
      | errorDominio cod m =>
        simp only [ResultadoLote.mk.injEq] at ihe
        obtain ⟨ih1, ih2, ih3, -⟩ := ihe
        simp only [secuenciaItems, validar_rut_local, hsec, Except.map,
          List.filterMap_cons, List.length_cons, acumularLote, Except.ok.injEq,
          ResultadoLote.mk.injEq]
        exact ⟨by rw [ih1], by rw [ih2], by rw [ih3], trivial⟩

/-- Witness for the amended C2 at a concrete mixed batch: one success,
one domain error; the batch completes, the domain error keeps its code
and the valid item its normalized value. -/
theorem validarListaDesde_continua_testigo :
    validarListaDesde .estricto
        [("1-9", ItemResultado.exito "1" "9"),
         ("98765432-1", ItemResultado.errorDominio (some "DIGIT_ERROR") "dv")] =
      .ok ⟨[⟨"1-9", "1", "9", "estricto"⟩], ["1-9"],
        [⟨"98765432-1", some "DIGIT_ERROR", "dv"⟩], 2⟩ := by
  rw [validarListaDesde_continua_con_errores_de_dominio .estricto _ ?_]
  · decide
  · intro p hp m
    simp only [List.mem_cons, List.not_mem_nil, or_false] at hp
    rcases hp with rfl | rfl <;> simp

/-! ## Claim C5: parallel and sequential batches agree

The parallel branch of `validar_lista_ruts` sends `(cadena,
configuracion, modo)` payloads through `executor.map`, which yields
results in submission order regardless of worker completion order, and
`_validar_rut_en_proceso` rebuilds a `ValidadorRut` from exactly the
fields the sequential branch reads off the held validador, so the two
branches are the same ordered map over the inputs. -/

/-- CLAIM C5: for every validador (configuration and rigor mode) and
every list of input strings, the parallel and the sequential run of
`validar_lista_ruts` produce identical results — same valid items, same
invalid items, same order (the elapsed-time field is not modelled; the
source excludes it from comparisons). -/
theorem validar_lista_ruts_paralelo_eq_secuencial
    (validador : ValidadorRut) (ruts : List String) :
    validar_lista_ruts validador ruts true =
      validar_lista_ruts validador ruts false := rfl

/-! ## Structure of successful normalization

These lemmas invert the normalizer: whenever it returns a normalized
value, that value is a hyphen-free base, a base with a trailing hyphen,
or a base, hyphen, and one lower-cased verification character. -/

/-- Characters of a lower-case verification class are fixed points of a
second lower-casing. -/
lemma minuscula_dv_fija (c : Char) (h : esDVChar c = true) :
    minuscula (minuscula c) = minuscula c := by
  unfold esDVChar esDigito at h
  simp only [Bool.or_eq_true, Bool.and_eq_true, decide_eq_true_eq] at h
  rcases h with (⟨h1, h2⟩ | h) | h
  · have hm : minuscula c = c := by
      unfold minuscula
      rw [if_neg (by simp only [Bool.and_eq_true, decide_eq_true_eq, not_and]; omega)]
    rw [hm, hm]
  · have hm : minuscula c = c := by
      unfold minuscula
      rw [if_neg (by simp only [Bool.and_eq_true, decide_eq_true_eq, not_and]; omega)]
    rw [hm, hm]
  · have hm : minuscula c = Char.ofNat (c.toNat + 32) := by
      unfold minuscula
      rw [if_pos (by simp only [Bool.and_eq_true, decide_eq_true_eq]; omega)]
    rw [hm, h]
    decide

/-- The checksum calculator only emits lower-case characters. -/
lemma dvComoCadena_minuscula (n : Nat) :
    (dvComoCadena n).data.map minuscula = (dvComoCadena n).data := by
  unfold dvComoCadena
  split
  · rename_i h; interval_cases n <;> decide
  · decide

/-- Successful checksum results are fixed by lower-casing. -/
lemma calcular_minuscula_fija (base : String) (cfg : ConfiguracionRut) (s : String)
    (h : calcular_digito_verificador base cfg = .ok s) :
    s.data.map minuscula = s.data := by
  unfold calcular_digito_verificador at h
  split at h
  · cases h
  · split at h
    · cases h
    · rw [Except.ok.injEq] at h
      rw [← h]
      exact dvComoCadena_minuscula _

/-- Splitting a list at its first occurrence of `-` and reassembling
gives the list back. -/
lemma take_drop_guion (l : List Char) (h : l.contains '-' = true) :
    l.takeWhile (fun c => c ≠ '-') ++ '-' :: (l.dropWhile (fun c => c ≠ '-')).tail
      = l := by
  induction l with
  | nil => simp at h
  | cons a resto ih =>
    by_cases ha : a = '-'
    · subst ha
      simp [List.takeWhile_cons, List.dropWhile_cons]
    · have hresto : resto.contains '-' = true := by
        simp only [List.contains_cons, Bool.or_eq_true, beq_iff_eq] at h
        rcases h with h1 | h1
        · exact absurd h1.symm ha
        · simpa using h1
      simp only [List.takeWhile_cons, List.dropWhile_cons, decide_eq_true_eq, ha,
        if_pos, if_true, List.cons_append]
      rw [if_pos (by simpa using ha), if_pos (by simpa using ha)]
      exact congrArg (a :: ·) (ih hresto)

/-- Dropping while a predicate holds skips over a block where it holds
everywhere. -/
lemma dropWhile_append_de_verdad (p : Char → Bool) (l1 l2 : List Char)
    (h : ∀ c ∈ l1, p c = true) :
    (l1 ++ l2).dropWhile p = l2.dropWhile p := by
  induction l1 with
  | nil => rfl
  | cons a resto ih =>
    rw [List.cons_append, List.dropWhile_cons, if_pos (h a (List.mem_cons_self a resto))]
    exact ih (fun c hc => h c (List.mem_cons_of_mem a hc))

/-- Inversion of the reassembly step of the normalizer. -/
lemma normalizarFinal_some (base : List Char) (dv : Option (List Char))
    (dvFaltante : Bool) (cambio : Bool) (advs : List DetalleError) (nz : String)
    (h : (normalizarFinal base dv dvFaltante cambio advs).normalizado = some nz) :
    (∃ d, dv = some d ∧ nz.data = base ++ '-' :: d) ∨
      (dv = none ∧ nz.data = base ++ ['-']) ∨ (dv = none ∧ nz.data = base) := by
  rcases dv with _ | d
  · cases dvFaltante
    · simp only [normalizarFinal] at h
      split at h
      · exact Option.noConfusion h
      · rw [Option.some.injEq] at h
        exact .inr (.inr ⟨rfl, by rw [← h]⟩)
    · simp only [normalizarFinal] at h
      split at h
      · exact Option.noConfusion h
      · rw [Option.some.injEq] at h
        exact .inr (.inl ⟨rfl, by rw [← h]⟩)
  · simp only [normalizarFinal] at h
    split at h
    · exact Option.noConfusion h
    · rw [Option.some.injEq] at h
      exact .inl ⟨d, rfl, by rw [← h]⟩

/-- A list that does not contain a character has no member equal to it. -/
lemma no_mem_de_contains_falso (l : List Char) (a : Char)
    (h : l.contains a = false) : a ∉ l := by
  intro hm
  simp [List.elem_eq_mem] at h
  exact h hm

/-- The hyphen-free property survives dot removal, leading-zero
stripping and the zero fallback. -/
lemma sin_guion_base_normalizada (baseRaw : List Char) (hg : '-' ∉ baseRaw)
    (hay : Bool) :
    '-' ∉ (if ((if hay then baseRaw.filter (fun c => c ≠ '.') else baseRaw).dropWhile
          (fun c => c = '0')).isEmpty then (['0'] : List Char)
        else (if hay then baseRaw.filter (fun c => c ≠ '.') else baseRaw).dropWhile
          (fun c => c = '0')) := by
  by_cases hhay : hay = true
  · simp only [if_pos hhay]
    intro hm
    split at hm
    · simp at hm
    · exact hg (List.mem_of_mem_filter ((List.dropWhile_sublist _).subset hm))
  · simp only [if_neg hhay]
    intro hm
    split at hm
    · simp at hm
    · exact hg ((List.dropWhile_sublist _).subset hm)

/-- The first hyphen is not inside the part before it. -/
lemma no_guion_takeWhile (l : List Char) :
    '-' ∉ l.takeWhile (fun c => c ≠ '-') := by
  intro hm
  have := List.mem_takeWhile_imp hm
  simp at this

/-- Inversion of the base/DV normalization stage, assuming its base part
is hyphen-free (as the split in `normalizarNucleo` guarantees). -/
lemma normalizarBaseDV_some (baseRaw dvParte : List Char)
    (guionPresente cambio : Bool) (advs : List DetalleError) (nz : String)
    (hg : '-' ∉ baseRaw)
    (h : (normalizarBaseDV baseRaw dvParte guionPresente cambio advs).normalizado = some nz) :
    ∃ base, ('-' ∉ base) ∧
      (nz.data = base ∨ nz.data = base ++ ['-'] ∨
        ∃ c, esDVChar c = true ∧ nz.data = base ++ ['-', minuscula c]) := by
  simp only [normalizarBaseDV] at h
  split at h
  · exact Option.noConfusion h
  · split at h
    · split at h
      · split at h
        · rename_i c hcond hdv
          rcases normalizarFinal_some _ _ _ _ _ _ h with ⟨d, hd, hnz⟩ | ⟨hd, _⟩ | ⟨hd, _⟩
          · rw [Option.some.injEq] at hd
            subst hd
            exact ⟨_, sin_guion_base_normalizada baseRaw hg _, .inr (.inr ⟨c, hdv, hnz⟩)⟩
          · exact Option.noConfusion hd
          · exact Option.noConfusion hd
        · exact Option.noConfusion h
      · exact Option.noConfusion h
    · rcases normalizarFinal_some _ _ _ _ _ _ h with ⟨d, hd, _⟩ | ⟨_, hnz⟩ | ⟨_, hnz⟩
      · exact Option.noConfusion hd
      · exact ⟨_, sin_guion_base_normalizada baseRaw hg _, .inr (.inl hnz)⟩
      · exact ⟨_, sin_guion_base_normalizada baseRaw hg _, .inl hnz⟩

/-- The shape of any normalized value produced by the core normalizer
steps: a hyphen-free base alone, a base with trailing hyphen, or a base,
hyphen and a single lower-cased verification character. -/
lemma normalizarNucleo_some (cadena : List Char) (cambio : Bool)
    (advs : List DetalleError) (nz : String)
    (h : (normalizarNucleo cadena cambio advs).normalizado = some nz) :
    ∃ base, ('-' ∉ base) ∧
      (nz.data = base ∨ nz.data = base ++ ['-'] ∨
        ∃ c, esDVChar c = true ∧ nz.data = base ++ ['-', minuscula c]) := by
  simp only [normalizarNucleo] at h
  by_cases hguion : cadena.contains '-' = true
  · simp only [hguion, if_true] at h
    repeat' split at h
    all_goals
      first
        | exact Option.noConfusion h
        | exact normalizarBaseDV_some _ _ _ _ _ _ (no_guion_takeWhile cadena) h
  · simp only [Bool.not_eq_true] at hguion
    simp only [hguion, Bool.false_eq_true, if_false] at h
    repeat' split at h
    all_goals
      first
        | exact Option.noConfusion h
        | exact normalizarBaseDV_some _ _ _ _ _ _
            (no_mem_de_contains_falso _ _ hguion) h

/-- The shape of any normalized value produced by `Rut.normalizar`. -/
lemma normalizar_some (valor : RutInput) (modo : RigorValidacion) (nz : String)
    (h : (Rut.normalizar valor modo).normalizado = some nz) :
    ∃ base, ('-' ∉ base) ∧
      (nz.data = base ∨ nz.data = base ++ ['-'] ∨
        ∃ c, esDVChar c = true ∧ nz.data = base ++ ['-', minuscula c]) := by
  cases valor with
  | otro => exact Option.noConfusion h
  | str s =>
    simp only [Rut.normalizar] at h
    repeat' split at h
    all_goals
      first
        | exact Option.noConfusion h
        | exact normalizarNucleo_some _ _ _ _ h
  | int n =>
    simp only [Rut.normalizar] at h
    repeat' split at h
    all_goals
      first
        | exact Option.noConfusion h
        | exact normalizarNucleo_some _ _ _ _ h

/-- Joining a base, a hyphen and a verification part as strings. -/
lemma string_guion_append (a b : List Char) :
    (⟨a⟩ : String) ++ "-" ++ ⟨b⟩ = ⟨a ++ '-' :: b⟩ := by
  show (⟨(a ++ ['-']) ++ b⟩ : String) = ⟨a ++ '-' :: b⟩
  rw [List.append_assoc]
  rfl

/-- Membership from a true `contains`. -/
lemma mem_de_contains_verdadero (l : List Char) (a : Char)
    (h : l.contains a = true) : a ∈ l := by
  simpa [List.elem_eq_mem] using h

/-- Dropping up to the first hyphen of `base ++ '-' :: rest` yields the
hyphen and the rest, when the base is hyphen-free. -/
lemma dropWhile_tras_base (base : List Char) (hbg : '-' ∉ base) (rest : List Char) :
    (base ++ '-' :: rest).dropWhile (fun c => c ≠ '-') = '-' :: rest := by
  have hall : ∀ c ∈ base, (fun c => decide (c ≠ '-')) c = true := by
    intro c hc
    simp only [decide_eq_true_eq]
    intro he
    exact hbg (he ▸ hc)
  rw [dropWhile_append_de_verdad (fun c => decide (c ≠ '-')) base ('-' :: rest) hall]
  simp [List.dropWhile_cons]

/-- Inversion of `Rut.parse` at a valid result: the errors are empty,
base and verification character are present, the normalized string is
their hyphen join, the verification character is lower-case, and it is
exactly the computed checksum. -/
lemma parse_valido_inv (valor : RutInput) (modo : RigorValidacion)
    (cfg : ConfiguracionRut) (r : ValidacionResultado)
    (hp : Rut.parse valor modo cfg = .ok r) (hv : r.estado = .valid) :
    r.errores = [] ∧ ∃ b d : String, r.base = some b ∧ r.dv = some d ∧
      r.normalizado = some (b ++ "-" ++ d) ∧
      d.data.map minuscula = d.data ∧
      calcular_digito_verificador b cfg = .ok d := by
  simp only [Rut.parse] at hp
  repeat' split at hp
  all_goals try exact Except.noConfusion hp
  all_goals rw [Except.ok.injEq] at hp
  all_goals subst hp
  all_goals try (cases hv)
  · -- the hyphenated valid leaf
    rename_i herr x1 nz hnorm hcont hbne hmin hmax dvO d hdvO x2 digito hcalc hne
    rcases normalizar_some valor modo nz hnorm with ⟨baseN, hbg, hshape | hshape | ⟨c, hc, hshape⟩⟩
    · exact absurd (hshape ▸ mem_de_contains_verdadero _ _ hcont) hbg
    · have htail : ((nz.data.dropWhile (fun c => c ≠ '-')).tail : List Char) = [] := by
        rw [hshape, dropWhile_tras_base baseN hbg []]
        rfl
      rw [htail] at hdvO
      simp at hdvO
    · have htail : ((nz.data.dropWhile (fun c => c ≠ '-')).tail : List Char) = [minuscula c] := by
        rw [hshape, dropWhile_tras_base baseN hbg [minuscula c]]
        rfl
      rw [htail] at hdvO
      simp only [List.isEmpty_cons, Bool.false_eq_true, if_false, Option.some.injEq] at hdvO
      subst hdvO
      simp only [not_not] at hne
      have hdfijo : List.map minuscula [minuscula c] = [minuscula c] := by
        simp [minuscula_dv_fija c hc]
      have hdig : [minuscula c] = digito.data := by
        rw [← calcular_minuscula_fija _ _ _ hcalc, ← hne, hdfijo]
      refine ⟨List.isEmpty_iff.mp herr, ⟨nz.data.takeWhile (fun c => c ≠ '-')⟩,
        ⟨[minuscula c]⟩, rfl, rfl, ?_, hdfijo, ?_⟩
      · have hlist : nz.data =
            (nz.data.takeWhile (fun c => c ≠ '-')) ++ '-' :: [minuscula c] := by
          conv_lhs => rw [← take_drop_guion nz.data hcont]
          rw [htail]
        rw [string_guion_append]
        exact congrArg some (congrArg String.mk hlist)
      · rw [show (⟨[minuscula c]⟩ : String) = digito from congrArg String.mk hdig]
        exact hcalc
  · -- the hyphen-free leaf: its verification part is always absent
    rename_i herr x1 nz hnorm hcont hbne hmin hmax dvO d hdvO x2 digito hcalc hne
    exact Option.noConfusion hdvO

/-! ## Claim C10: a valid result is always checksum-verified -/

/-- CLAIM C10: whenever `Rut.parse` returns a result whose estado is
valid — for any input, rigor mode and configuration — the error list is
empty, base and verification character are present, the verification
character is lower-case, the normalized field is their hyphen join, and
the verification character equals
`calcular_digito_verificador(base, configuracion)`. -/
theorem parse_valido_es_verificado (valor : RutInput) (modo : RigorValidacion)
    (cfg : ConfiguracionRut) (r : ValidacionResultado)
    (hp : Rut.parse valor modo cfg = .ok r) (hv : r.estado = .valid) :
    r.errores = [] ∧ ∃ b d : String, r.base = some b ∧ r.dv = some d ∧
      r.normalizado = some (b ++ "-" ++ d) ∧
      d.data.map minuscula = d.data ∧
      calcular_digito_verificador b cfg = .ok d :=
  parse_valido_inv valor modo cfg r hp hv

/-- Witness for C10 at `12.345.678-5` under the default configuration
and strict mode. -/
theorem parse_valido_es_verificado_testigo :
    ∃ r, Rut.parse (.str "12.345.678-5") .estricto CONFIGURACION_POR_DEFECTO = .ok r ∧
      r.estado = .valid ∧ r.errores = [] ∧
      ∃ b d : String, r.base = some b ∧ r.dv = some d ∧
        r.normalizado = some (b ++ "-" ++ d) ∧
        d.data.map minuscula = d.data ∧
        calcular_digito_verificador b CONFIGURACION_POR_DEFECTO = .ok d := by
  have hp : Rut.parse (.str "12.345.678-5") .estricto CONFIGURACION_POR_DEFECTO =
      .ok ⟨"12.345.678-5", some "12345678-5", some "12345678", some "5", .valid, [],
        [crear_detalle_error "NORMALIZED_DOTS"], "estricto"⟩ := by decide
  obtain ⟨h1, hrest⟩ :=
    parse_valido_es_verificado (.str "12.345.678-5") .estricto CONFIGURACION_POR_DEFECTO _ hp rfl
  exact ⟨_, hp, rfl, h1, hrest⟩

/-! ## Claim C9 (corrected): NFKC-changed input without cosmetic
warnings

The claim says such input always fails with `INVALID_CHARS` and is
classified invalid.  The confusable-character guard sits at the end of
the normalizer, so input that short-circuits earlier fails differently:
the digitless fullwidth input `ｋ` canonicalizes to `k`, records no
warning, produces no error at all, and is classified incomplete.  What
does hold: such input never normalizes and is never classified valid or
possible. -/

/-- The reassembly step returns the warning list it was given. -/
lemma normalizarFinal_advertencias_eq (base : List Char) (dv : Option (List Char))
    (dvFaltante : Bool) (cambio : Bool) (advs : List DetalleError) :
    (normalizarFinal base dv dvFaltante cambio advs).advertencias = advs := by
  unfold normalizarFinal
  split
  · rfl
  · split <;> rfl

/-- Succeeding at the reassembly step means the confusable-character
guard condition was false. -/
lemma normalizarFinal_guard (base : List Char) (dv : Option (List Char))
    (dvFaltante : Bool) (cambio : Bool) (advs : List DetalleError) (nz : String)
    (h : (normalizarFinal base dv dvFaltante cambio advs).normalizado = some nz) :
    (cambio && !(tieneCodigo advs "NORMALIZED_WS" ||
      tieneCodigo advs "NORMALIZED_DASH")) = false := by
  unfold normalizarFinal at h
  split at h
  · exact Option.noConfusion h
  · rename_i hguard
    simp only [Bool.not_eq_true] at hguard
    exact hguard

/-- If the base/DV stage produced `S` with a normalized value, the
Unicode change flag is false or `S` records a whitespace or dash
warning. -/
lemma normalizarBaseDV_guard (baseRaw dvParte : List Char)
    (guionPresente cambio : Bool) (advs : List DetalleError) (S : NormSalida)
    (h : normalizarBaseDV baseRaw dvParte guionPresente cambio advs = S)
    (nz : String) (hs : S.normalizado = some nz) :
    (cambio && !(tieneCodigo S.advertencias "NORMALIZED_WS" ||
      tieneCodigo S.advertencias "NORMALIZED_DASH")) = false := by
  simp only [normalizarBaseDV] at h
  repeat' split at h
  all_goals subst h
  all_goals try exact Option.noConfusion hs
  all_goals rw [normalizarFinal_advertencias_eq]
  all_goals exact normalizarFinal_guard _ _ _ _ _ _ hs

/-- If the core normalizer steps produced `S` with a normalized value,
the Unicode change flag is false or `S` records a whitespace or dash
warning. -/
lemma normalizarNucleo_guard (cadena : List Char) (cambio : Bool)
    (advs : List DetalleError) (S : NormSalida)
    (h : normalizarNucleo cadena cambio advs = S)
    (nz : String) (hs : S.normalizado = some nz) :
    (cambio && !(tieneCodigo S.advertencias "NORMALIZED_WS" ||
      tieneCodigo S.advertencias "NORMALIZED_DASH")) = false := by
  simp only [normalizarNucleo] at h
  repeat' split at h
  all_goals
    first
      | exact normalizarBaseDV_guard _ _ _ _ _ _ h _ hs
      | (subst h; exact Option.noConfusion hs)

/-- If `Rut.normalizar` produced a normalized value, the NFKC model left
the input unchanged or the result records a whitespace or dash
warning. -/
lemma normalizar_guard (valor : RutInput) (modo : RigorValidacion) (nz : String)
    (hs : (Rut.normalizar valor modo).normalizado = some nz) :
    (decide (nfkcLista valor.comoCadena.data ≠ valor.comoCadena.data) &&
      !(tieneCodigo (Rut.normalizar valor modo).advertencias "NORMALIZED_WS" ||
        tieneCodigo (Rut.normalizar valor modo).advertencias "NORMALIZED_DASH")) = false := by
  obtain ⟨S, hS⟩ : ∃ S, Rut.normalizar valor modo = S := ⟨_, rfl⟩
  rw [hS] at hs ⊢
  cases valor with
  | otro =>
    rw [show (Rut.normalizar .otro modo) = ⟨none, [crear_detalle_error "TYPE_ERROR"], []⟩ from rfl] at hS
    subst hS
    exact Option.noConfusion hs
  | str s =>
    simp only [Rut.normalizar] at hS
    repeat' split at hS
    all_goals
      first
        | exact normalizarNucleo_guard _ _ _ _ hS _ hs
        | (subst hS; exact Option.noConfusion hs)
  | int n =>
    simp only [Rut.normalizar] at hS
    repeat' split at hS
    all_goals
      first
        | exact normalizarNucleo_guard _ _ _ _ hS _ hs
        | (subst hS; exact Option.noConfusion hs)

/-- Without a normalized value, `Rut.parse` classifies the input as
incomplete or invalid only. -/
lemma parse_normalizado_none (valor : RutInput) (modo : RigorValidacion)
    (cfg : ConfiguracionRut) (r : ValidacionResultado)
    (hnone : (Rut.normalizar valor modo).normalizado = none)
    (hp : Rut.parse valor modo cfg = .ok r) :
    r.estado = .incomplete ∨ r.estado = .invalid := by
  simp only [Rut.parse, hnone] at hp
  repeat' split at hp
  all_goals rw [Except.ok.injEq] at hp
  all_goals subst hp
  all_goals first | exact .inl rfl | exact .inr rfl

/-- CLAIM C9 (counterexample): the fullwidth input `ｋ` is changed by
NFKC and records no whitespace or dash warning, yet normalization does
not fail with `INVALID_CHARS` — it reports no error at all — and
`Rut.parse` classifies it incomplete, not invalid. -/
theorem nfkc_cambio_contraejemplo :
    nfkcLista (RutInput.str "ｋ").comoCadena.data ≠ (RutInput.str "ｋ").comoCadena.data ∧
    (Rut.normalizar (.str "ｋ") .estricto).advertencias = [] ∧
    (Rut.normalizar (.str "ｋ") .estricto).errores = [] ∧
    (Rut.parse (.str "ｋ") .estricto CONFIGURACION_POR_DEFECTO).map
      ValidacionResultado.estado = .ok .incomplete := by
  decide

/-- CLAIM C9 (amended): for every input changed by NFKC canonicalization
whose normalization records neither a whitespace nor a dash warning,
normalization never produces a normalized value — it fails with a fatal
error (INVALID_CHARS when no earlier step failed, as for fullwidth
digits) or returns no value for digitless input — and `Rut.parse` never
classifies the input as valid or possible. -/
theorem nfkc_cambio_nunca_normaliza (valor : RutInput) (modo : RigorValidacion)
    (cfg : ConfiguracionRut)
    (hcambio : nfkcLista valor.comoCadena.data ≠ valor.comoCadena.data)
    (hws : tieneCodigo (Rut.normalizar valor modo).advertencias "NORMALIZED_WS" = false)
    (hdash : tieneCodigo (Rut.normalizar valor modo).advertencias "NORMALIZED_DASH" = false) :
    (Rut.normalizar valor modo).normalizado = none ∧
      ∀ r, Rut.parse valor modo cfg = .ok r →
        r.estado ≠ .valid ∧ r.estado ≠ .possible := by
  have hnone : (Rut.normalizar valor modo).normalizado = none := by
    cases hnn : (Rut.normalizar valor modo).normalizado with
    | none => rfl
    | some nz =>
      have hguard := normalizar_guard valor modo nz hnn
      rw [hws, hdash] at hguard
      simp [hcambio] at hguard
  refine ⟨hnone, fun r hp => ?_⟩
  rcases parse_normalizado_none valor modo cfg r hnone hp with he | he <;>
    rw [he] <;> exact ⟨by decide, by decide⟩

/-- Witness for the amended C9 at the fullwidth-digit example of the
specification: `１２３４５６７８-５` is rejected with `INVALID_CHARS`
and classified invalid. -/
theorem nfkc_cambio_nunca_normaliza_testigo :
    ((Rut.normalizar (.str "１２３４５６７８-５") .estricto).normalizado = none ∧
      ∀ r, Rut.parse (.str "１２３４５６７８-５") .estricto CONFIGURACION_POR_DEFECTO = .ok r →
        r.estado ≠ .valid ∧ r.estado ≠ .possible) ∧
    (Rut.normalizar (.str "１２３４５６７８-５") .estricto).errores =
      [crear_detalle_error "INVALID_CHARS"] ∧
    (Rut.parse (.str "１２３４５６７８-５") .estricto CONFIGURACION_POR_DEFECTO).map
      ValidacionResultado.estado = .ok .invalid := by
  refine ⟨nfkc_cambio_nunca_normaliza _ _ _ (by decide) (by decide) (by decide), by decide, by decide⟩

/-! ## Claim C6: the mask formula -/

/-- CLAIM C6: on every input that classifies as valid with base of
length `L`, mask mode reveals the last `min keep L` base characters,
preceded by `L - keep` (truncated at zero) copies of the mask character,
with the hyphen and the check character appended unmasked. -/
theorem mask_formula (valor : RutInput) (keep : Int) (char : String)
    (r : ValidacionResultado) (b d : String)
    (hk : 0 ≤ keep) (hc : char.length = 1)
    (hp : Rut.parse valor .estricto CONFIGURACION_POR_DEFECTO = .ok r)
    (hv : r.estado = .valid) (hb : r.base = some b) (hd : r.dv = some d) :
    Rut.mask valor keep char .mask none false false '.' =
      .ok ⟨List.replicate (b.length - keep.toNat) (char.data.headD '*') ++
        b.data.drop (b.length - min keep.toNat b.length) ++ '-' :: d.data⟩ := by
  simp only [Rut.mask]
  rw [if_neg (by omega), if_neg (by simp [hc]), hp]
  simp only [hv, hb, hd, Bool.false_eq_true, if_false]
  refine congrArg Except.ok (congrArg String.mk ?_)
  have hlen : b.length = b.data.length := rfl
  split
  · rename_i hge
    have h1 : b.length - keep.toNat = 0 := by omega
    have h2 : min keep.toNat b.length = b.length := by omega
    rw [h1, h2, hlen]
    simp
  · split
    · rename_i hlt hzero
      have h1 : keep.toNat = 0 := by omega
      rw [h1, hlen]
      simp
    · rename_i hlt hzero
      have h2 : min keep.toNat b.length = keep.toNat := by omega
      rw [h2, hlen]

/-- Witness for C6 at the two specification examples. -/
theorem mask_formula_testigo :
    Rut.mask (.str "12.345.678-5") 3 "X" .mask none false false '.' = .ok "XXXXX678-5" ∧
    Rut.mask (.str "12345678-5") 8 "*" .mask none false false '.' = .ok "12345678-5" := by
  have hp1 : Rut.parse (.str "12.345.678-5") .estricto CONFIGURACION_POR_DEFECTO =
      .ok ⟨"12.345.678-5", some "12345678-5", some "12345678", some "5", .valid, [],
        [crear_detalle_error "NORMALIZED_DOTS"], "estricto"⟩ := by decide
  have hp2 : Rut.parse (.str "12345678-5") .estricto CONFIGURACION_POR_DEFECTO =
      .ok ⟨"12345678-5", some "12345678-5", some "12345678", some "5", .valid, [],
        [], "estricto"⟩ := by decide
  constructor
  · rw [mask_formula (.str "12.345.678-5") 3 "X" _ "12345678" "5"
      (by decide) (by decide) hp1 rfl rfl rfl]
    decide
  · rw [mask_formula (.str "12345678-5") 8 "*" _ "12345678" "5"
      (by decide) (by decide) hp2 rfl rfl rfl]
    decide

/-! ## Claim C7 (corrected): when MASK_STATE is raised

As stated, the claim fails: on `1k-5` (and any input on which
`Rut.parse` itself raises, see C1), `Rut.mask` propagates the parse
exception (`INVALID_DIGITS`) instead of `MASK_STATE`, although the
input does not classify as valid.  What holds: whenever `Rut.parse`
returns a result, `mask` fails with `MASK_STATE` exactly when that
result is not valid. -/

/-- Whether an embedded call outcome is a `MASK_STATE` failure. -/
def fallaConMaskState (x : Except ErrorRutE String) : Bool :=
  match x with
  | .error e => e.codigo == some "MASK_STATE"
  | .ok _ => false

/-- CLAIM C7 (counterexample): for the input `1k-5`, which does not
classify as valid, `Rut.mask` does not fail with `MASK_STATE` — the
escaping `INVALID_DIGITS` exception from `Rut.parse` propagates
instead. -/
theorem mask_estado_contraejemplo :
    (¬ ∃ r, Rut.parse (.str "1k-5") .estricto CONFIGURACION_POR_DEFECTO = .ok r ∧
        r.estado = .valid) ∧
    fallaConMaskState (Rut.mask (.str "1k-5") 4 "*" .mask none false false '.') = false ∧
    Rut.mask (.str "1k-5") 4 "*" .mask none false false '.' =
      .error ⟨some "INVALID_DIGITS",
        "La base numérica 1k debe contener solo dígitos"⟩ := by
  refine ⟨?_, by decide, by decide⟩
  rintro ⟨r, hr, -⟩
  rw [show Rut.parse (.str "1k-5") .estricto CONFIGURACION_POR_DEFECTO =
    .error ⟨some "INVALID_DIGITS", "La base numérica 1k debe contener solo dígitos"⟩
    from by decide] at hr
  exact Except.noConfusion hr

/-- CLAIM C7 (amended): for every input on which `Rut.parse` returns a
result, and every well-typed `keep`/`char` argument, `Rut.mask` fails
with `MASK_STATE` if and only if that result does not classify the
input as valid (when `parse` itself raises, `mask` propagates that
error instead). -/
theorem mask_estado_error_iff (valor : RutInput) (keep : Int) (char : String)
    (modo : ModoMask) (clave : Option String) (r : ValidacionResultado)
    (hk : 0 ≤ keep) (hc : char.length = 1)
    (hp : Rut.parse valor .estricto CONFIGURACION_POR_DEFECTO = .ok r) :
    fallaConMaskState (Rut.mask valor keep char modo clave false false '.') = true ↔
      r.estado ≠ .valid := by
  simp only [Rut.mask]
  rw [if_neg (by omega), if_neg (by simp [hc]), hp]
  by_cases hv : r.estado = .valid
  · obtain ⟨-, b, d, hb, hd, hnz, -, -⟩ := parse_valido_inv valor .estricto
      CONFIGURACION_POR_DEFECTO r hp hv
    simp only [hv, hb, hd]
    cases modo with
    | token =>
      cases clave with
      | none => simp [fallaConMaskState, hv]
      | some k =>
        rw [hnz]
        simp [fallaConMaskState, hv]
    | mask => simp [fallaConMaskState, hv]
  · constructor
    · intro _
      exact hv
    · intro _
      split
      · rename_i e heq
        exact Except.noConfusion heq
      · rename_i resultado heq
        rw [Except.ok.injEq] at heq
        subst heq
        split
        · rename_i heq1 heq2 heq3
          exact absurd heq1 hv
        · decide

/-- Witness for the amended C7 at `12345678-9` (checksum mismatch, so
parse returns an invalid result): mask fails with `MASK_STATE`. -/
theorem mask_estado_error_iff_testigo :
    ∃ r, Rut.parse (.str "12345678-9") .estricto CONFIGURACION_POR_DEFECTO = .ok r ∧
      r.estado ≠ .valid ∧
      fallaConMaskState (Rut.mask (.str "12345678-9") 4 "*" .mask none false false '.') =
        true := by
  have hp : Rut.parse (.str "12345678-9") .estricto CONFIGURACION_POR_DEFECTO =
      .ok ⟨"12345678-9", some "12345678-9", some "12345678", some "9", .invalid,
        [crear_detalle_error "DV_MISMATCH"], [], "estricto"⟩ := by decide
  refine ⟨_, hp, by decide, ?_⟩
  exact (mask_estado_error_iff (.str "12345678-9") 4 "*" .mask none _
    (by decide) (by decide) hp).mpr (by decide)

/-! ## Claim C8: tokenization is deterministic per key, key-bound, and
prefixed -/

set_option maxRecDepth 16384 in
/-- CLAIM C8: token mode is deterministic per `(input, key)` — two calls
with the same arguments return the identical string; every token the
call returns starts with `tok_`; and for a valid input, changing the key
changes the output. -/
theorem token_determinista_y_ligado_a_clave :
    (∀ (valor : RutInput) (clave : Option String) (t1 t2 : String),
        Rut.mask valor 4 "*" .token clave false false '.' = .ok t1 →
        Rut.mask valor 4 "*" .token clave false false '.' = .ok t2 → t1 = t2) ∧
    (∀ (valor : RutInput) (clave : Option String) (t : String),
        Rut.mask valor 4 "*" .token clave false false '.' = .ok t →
        t.data.take 4 = "tok_".data) ∧
    Rut.mask (.str "12345678-5") 4 "*" .token (some "k1") false false '.' ≠
      Rut.mask (.str "12345678-5") 4 "*" .token (some "k2") false false '.' := by
  refine ⟨?_, ?_, ?_⟩
  · intro valor clave t1 t2 h1 h2
    rw [h1] at h2
    exact Except.ok.inj h2
  · intro valor clave t h
    simp only [Rut.mask] at h
    rw [if_neg (by omega), if_neg (by decide)] at h
    repeat' split at h
    all_goals
      first
        | exact Except.noConfusion h
        | (rw [Except.ok.injEq] at h
           subst h
           exact List.take_left' (by decide))
  · decide

set_option maxRecDepth 16384 in
/-- Witness for C8 at the valid input `12.345.678-5` with the key
`k-secreta`: the embedded HMAC-SHA256/base32 pipeline yields exactly
this token, and the prefix clause of the theorem applies to it. -/
theorem token_determinista_y_ligado_a_clave_testigo :
    Rut.mask (.str "12.345.678-5") 4 "*" .token (some "k-secreta") false false '.' =
      .ok "tok_ccv3yy4n3xwji5txccipb56ngxukx7ouywyn6kpj3lh4g4slmhfa" ∧
    ("tok_ccv3yy4n3xwji5txccipb56ngxukx7ouywyn6kpj3lh4g4slmhfa" : String).data.take 4 =
      "tok_".data := by
  have h : Rut.mask (.str "12.345.678-5") 4 "*" .token (some "k-secreta") false false '.' =
      .ok "tok_ccv3yy4n3xwji5txccipb56ngxukx7ouywyn6kpj3lh4g4slmhfa" := by decide
  exact ⟨h, token_determinista_y_ligado_a_clave.2.1
    (.str "12.345.678-5") (some "k-secreta") _ h⟩

end Rutificador
